import Mathlib

/-!
Shallow embedding of the payments-app data layer and reporting engine
(`src/app.py`): the Excel-backed record store (`carregar_dados`,
`salvar_registro`, `to_excel_bytes`), the form-submission validation, the
date/client/service filter, and the KPI / grouping / monthly aggregations.

Machine representation choices:
* a spreadsheet cell is `Cell` (empty = NaN/None, text, number, datetime);
* amounts are `ℚ` (pandas float arithmetic on exact decimal inputs);
* a raw persisted row is an association list from column name to cell, a
  missing column behaving as an empty cell (matching the backfill loop in
  `carregar_dados`);
* the backing file is `Option FileData`: absent, corrupt/unreadable, or a
  single named sheet of raw rows;
* pandas NaN/NaT results are `Option.none`.
-/

namespace PaymentsApp

/-- A timestamp at second granularity, the resolution produced by
`datetime.now().strftime("%Y-%m-%d %H:%M:%S")` in `salvar_registro`. -/
structure DateTime where
  year : Nat
  month : Nat
  day : Nat
  hour : Nat
  minute : Nat
  second : Nat
deriving DecidableEq

/-- A calendar date, the derived `Data` column (`.dt.date`). -/
structure Date where
  year : Nat
  month : Nat
  day : Nat
deriving DecidableEq

/-- Chronological (lexicographic) order on calendar dates, as used by the
pandas comparisons `df["Data"] >= data_inicial` / `<= data_final`. -/
def Date.le (a b : Date) : Prop :=
  a.year < b.year ∨
    (a.year = b.year ∧ (a.month < b.month ∨ (a.month = b.month ∧ a.day ≤ b.day)))

instance : LE Date := ⟨Date.le⟩

instance (a b : Date) : Decidable (a ≤ b) :=
  inferInstanceAs (Decidable (_ ∨ _))

/-- A spreadsheet cell value: empty (NaN/None/NaT), text, number, or datetime. -/
inductive Cell where
  | empty : Cell
  | str : String → Cell
  | num : ℚ → Cell
  | dt : DateTime → Cell
deriving DecidableEq

/-- Whether a cell is the null marker (pandas NaN). -/
def Cell.isNull : Cell → Bool
  | Cell.empty => true
  | _ => false

/-- Characters stripped from both ends by Python `str.strip()`. -/
def stripList (l : List Char) : List Char :=
  ((l.dropWhile Char.isWhitespace).reverse.dropWhile Char.isWhitespace).reverse

/-- Python `str.strip()`: remove leading and trailing whitespace. -/
def strip (s : String) : String := String.mk (stripList s.data)

/-- Split a character list on a separator character (never returns `[]`). -/
def splitOnChar (sep : Char) : List Char → List (List Char)
  | [] => [[]]
  | c :: rest =>
    if c = sep then [] :: splitOnChar sep rest
    else
      match splitOnChar sep rest with
      | [] => [[c]]
      | x :: xs => (c :: x) :: xs

/-- Value of a decimal digit character, if it is one. -/
def digitVal (c : Char) : Option Nat :=
  if c.isDigit then some (c.toNat - 48) else none

/-- Parse a non-empty all-digit character list as a natural number. -/
def digitsToNat (l : List Char) : Option Nat :=
  if l.isEmpty then none
  else l.foldl (fun acc c => acc.bind (fun n => (digitVal c).map (fun d => n * 10 + d))) (some 0)

/-- Models `pd.to_datetime(_, errors="coerce")` on the text timestamps the app
itself writes (`"%Y-%m-%d %H:%M:%S"`): a well-formed timestamp in that format
parses, anything else coerces to the null marker NaT (`none`). -/
def parseDT (s : String) : Option DateTime :=
  match splitOnChar ' ' s.data with
  | [d, t] =>
    match splitOnChar '-' d, splitOnChar ':' t with
    | [y, mo, da], [h, mi, se] =>
      match digitsToNat y, digitsToNat mo, digitsToNat da,
            digitsToNat h, digitsToNat mi, digitsToNat se with
      | some yn, some mon, some dan, some hn, some min', some sen =>
        if 1 ≤ mon ∧ mon ≤ 12 ∧ 1 ≤ dan ∧ dan ≤ 31 ∧ hn ≤ 23 ∧ min' ≤ 59 ∧ sen ≤ 59 then
          some ⟨yn, mon, dan, hn, min', sen⟩
        else none
      | _, _, _, _, _, _ => none
    | _, _ => none
  | _ => none

/-- Models `pd.to_numeric(_, errors="coerce")` on text: integer text parses,
anything else coerces to NaN (`none`). -/
def parseNum (s : String) : Option ℚ :=
  (digitsToNat (stripList s.data)).map (fun n => (n : ℚ))

/-- `pd.to_datetime(_, errors="coerce")` applied to one cell: datetimes pass
through, text is parsed permissively, everything else becomes NaT. -/
def toDatetime : Cell → Option DateTime
  | Cell.dt t => some t
  | Cell.str s => parseDT s
  | _ => none

/-- `pd.to_numeric(_, errors="coerce")` applied to one cell: numbers pass
through, numeric text is parsed, everything else becomes NaN. -/
def toNumeric : Cell → Option ℚ
  | Cell.num q => some q
  | Cell.str s => parseNum s
  | _ => none

/-- A normalized in-memory record: the four canonical columns after the load
pipeline (`Data/Hora` parsed to datetime, `Valor Pago (USD)` coerced to
numeric, `Cliente`/`Serviço` kept as raw cells). -/
structure Row where
  dataHora : Option DateTime
  cliente : Cell
  servico : Cell
  valor : Option ℚ
deriving DecidableEq

/-- A raw persisted row: association list from column name to cell.
An absent column behaves as an empty (null) cell. -/
abbrev RawRow := List (String × Cell)

/-- The persisted workbook: either unreadable/corrupt, or one named sheet of
raw rows. -/
inductive FileData where
  | corrupt : FileData
  | sheet : String → List RawRow → FileData

def ARQUIVO_EXCEL : String := "payments_records.xlsx"

def ABA : String := "Records"

def COLUNAS_PADRAO : List String :=
  ["Data/Hora", "Cliente", "Serviço", "Valor Pago (USD)"]

/-- Read one column of a raw row; a missing column yields the null cell,
matching the backfill loop `if c not in df.columns: df[c] = None`. -/
def getCol (row : RawRow) (c : String) : Cell :=
  (List.lookup c row).getD Cell.empty

/-- The per-row effect of `carregar_dados` lines 24-30: restrict/reorder to the
canonical columns, parse `Data/Hora`, coerce `Valor Pago (USD)` to numeric. -/
def normalizeRow (row : RawRow) : Row :=
  { dataHora := toDatetime (getCol row "Data/Hora")
    cliente := getCol row "Cliente"
    servico := getCol row "Serviço"
    valor := toNumeric (getCol row "Valor Pago (USD)") }

/-- Result of `carregar_dados`: the loaded table plus whether the recoverable
`st.warning` path was taken. Loading never raises. -/
structure LoadResult where
  warned : Bool
  table : List Row
deriving DecidableEq

/-- `carregar_dados(caminho, aba)`: missing file → empty table; unreadable
workbook or missing sheet → warning and empty table; otherwise the sheet's
rows, normalized. -/
def carregar_dados (file : Option FileData) (aba : String) : LoadResult :=
  match file with
  | none => ⟨false, []⟩
  | some FileData.corrupt => ⟨true, []⟩
  | some (FileData.sheet name rows) =>
    if name = aba then ⟨false, rows.map normalizeRow⟩ else ⟨true, []⟩

/-- Left-pad the decimal representation of `n` with zeros to width `w`. -/
def padNat (w n : Nat) : String :=
  String.mk (List.replicate (w - (toString n).length) '0') ++ toString n

/-- `strftime("%Y-%m-%d %H:%M:%S")`. -/
def fmtDateTime (t : DateTime) : String :=
  padNat 4 t.year ++ "-" ++ padNat 2 t.month ++ "-" ++ padNat 2 t.day ++ " " ++
    padNat 2 t.hour ++ ":" ++ padNat 2 t.minute ++ ":" ++ padNat 2 t.second

/-- The single-row DataFrame `novo` built in `salvar_registro`: timestamp as
formatted text, client/service stripped, amount as a number. -/
def novoRow (cliente servico : String) (valor : ℚ) (now : DateTime) : RawRow :=
  [("Data/Hora", Cell.str (fmtDateTime now)),
   ("Cliente", Cell.str (strip cliente)),
   ("Serviço", Cell.str (strip servico)),
   ("Valor Pago (USD)", Cell.num valor)]

/-- `salvar_registro`: re-read the backing file (raw, without normalization),
append the new row — falling back to just the new row whenever the read
raises — and rewrite the whole workbook. Returns the written file and the
resulting raw table `df_final`. -/
def salvar_registro (cliente servico : String) (valor : ℚ) (now : DateTime)
    (file : Option FileData) (aba : String) : FileData × List RawRow :=
  let novo := novoRow cliente servico valor now
  let df_final :=
    match file with
    | none => [novo]
    | some FileData.corrupt => [novo]
    | some (FileData.sheet name rows) =>
      if name = aba then rows ++ [novo] else [novo]
  (FileData.sheet aba df_final, df_final)

/-- Serialization of one in-memory cell back to a spreadsheet cell. -/
def cellOfDT : Option DateTime → Cell
  | some t => Cell.dt t
  | none => Cell.empty

/-- Serialization of one in-memory amount back to a spreadsheet cell. -/
def cellOfNum : Option ℚ → Cell
  | some q => Cell.num q
  | none => Cell.empty

/-- One in-memory record written back out with its four canonical columns. -/
def rowToRaw (r : Row) : RawRow :=
  [("Data/Hora", cellOfDT r.dataHora),
   ("Cliente", r.cliente),
   ("Serviço", r.servico),
   ("Valor Pago (USD)", cellOfNum r.valor)]

/-- `to_excel_bytes`: serialize a table to a one-sheet workbook whose sheet is
named `"Filtered"` (the Export Adapter). -/
def to_excel_bytes (df : List Row) : FileData :=
  FileData.sheet "Filtered" (df.map rowToRaw)

/-- The form-submit handler (lines 86-102): collect validation errors for an
empty/whitespace-only client or service and for a negative amount; only when
no error was found is `salvar_registro` called. Returns the new backing-file
state and whether a save happened. -/
def form_submit (cliente servico : String) (valor : ℚ) (now : DateTime)
    (file : Option FileData) : Option FileData × Bool :=
  let erros :=
    (if strip cliente = "" then ["Informe o nome do cliente."] else []) ++
    (if strip servico = "" then ["Descreva o servico realizado."] else []) ++
    (if valor < 0 then ["O valor precisa ser zero ou positivo."] else [])
  if erros = [] then
    (some (salvar_registro cliente servico valor now file ABA).1, true)
  else
    (file, false)

/-- Derived `Data` column: calendar date of the timestamp, NaT staying null. -/
def dataCol (r : Row) : Option Date :=
  r.dataHora.map (fun t => ⟨t.year, t.month, t.day⟩)

/-- The `"YYYY-MM"` bucket string produced by `.dt.to_period("M").astype(str)`
for a parsed timestamp. -/
def toYM (y m : Nat) : String := padNat 4 y ++ "-" ++ padNat 2 m

/-- Derived `AnoMes` column. `astype(str)` turns the NaT period of a record
with an unparseable timestamp into the literal string `"NaT"`. -/
def anoMes (r : Row) : String :=
  match r.dataHora with
  | some t => toYM t.year t.month
  | none => "NaT"

/-- The date part of the filter mask (line 141): NaT dates compare false. -/
def dateMask (d1 d2 : Date) (r : Row) : Bool :=
  match dataCol r with
  | some d => decide (d1 ≤ d) && decide (d ≤ d2)
  | none => false

/-- Lines 141-147: the combined mask. The client/service restrictions are only
added when the corresponding selection list is non-empty (Python truthiness of
`clientes_sel` / `servicos_sel`). -/
def df_filtrado (df : List Row) (d1 d2 : Date) (cs ss : List Cell) : List Row :=
  let m1 := dateMask d1 d2
  let m2 := if cs.isEmpty then m1 else fun r => m1 r && cs.contains r.cliente
  let m3 := if ss.isEmpty then m2 else fun r => m2 r && ss.contains r.servico
  df.filter m3

/-- `df["Valor Pago (USD)"].sum(skipna=True)`: sum of the non-null amounts. -/
def total_periodo (df : List Row) : ℚ :=
  (df.filterMap Row.valor).sum

/-- `df["Valor Pago (USD)"].mean(skipna=True)`: mean of the non-null amounts,
NaN (`none`) when there are none. -/
def mean_valor (df : List Row) : Option ℚ :=
  let vals := df.filterMap Row.valor
  if vals.length = 0 then none else some (vals.sum / (vals.length : ℚ))

/-- Line 153: the mean guarded by `qtd_registros > 0`, with `0.0` for an empty
(filtered) table. -/
def media_registro (df : List Row) : Option ℚ :=
  if 0 < df.length then mean_valor df else some 0

/-- Summed amounts of the records of one group key. -/
def keySum (df : List Row) (key : Row → Cell) (k : Cell) : ℚ :=
  ((df.filter (fun r => decide (key r = k))).filterMap Row.valor).sum

/-- Ordering pairs by descending summed amount (`sort_values(ascending=False)`). -/
def geByVal (a b : Cell × ℚ) : Prop := b.2 ≤ a.2

instance : DecidableRel geByVal := fun a b => inferInstanceAs (Decidable (b.2 ≤ a.2))

instance : IsTotal (Cell × ℚ) geByVal := ⟨fun a b => le_total b.2 a.2⟩

instance : IsTrans (Cell × ℚ) geByVal := ⟨fun _ _ _ h1 h2 => le_trans h2 h1⟩

/-- `groupby(key, dropna=True)[amount].sum().sort_values(ascending=False)`:
null keys are dropped, each remaining key is paired with its summed amount,
and the pairs are sorted by descending value. -/
def group_sum (df : List Row) (key : Row → Cell) : List (Cell × ℚ) :=
  let ks := ((df.map key).filter (fun c => !c.isNull)).dedup
  List.insertionSort geByVal (ks.map (fun k => (k, keySum df key k)))

/-- Lines 206-210: totals grouped by client. -/
def grp_cli (df : List Row) : List (Cell × ℚ) := group_sum df Row.cliente

/-- Lines 219-223: totals grouped by service. -/
def grp_srv (df : List Row) : List (Cell × ℚ) := group_sum df Row.servico

/-- Summed amounts of the records carrying one `AnoMes` bucket string. -/
def anoMesSum (df : List Row) (k : String) : ℚ :=
  ((df.filter (fun r => decide (anoMes r = k))).filterMap Row.valor).sum

instance : DecidableRel ((· ≤ ·) : String → String → Prop) :=
  fun a b => inferInstanceAs (Decidable (a ≤ b))

/-- Lines 233-237: `df.groupby("AnoMes", dropna=True)[amount].sum()` followed
by `sort_values("AnoMes")` — one pair per distinct `AnoMes` string, keys in
ascending lexical order. -/
def resumo_mensal (df : List Row) : List (String × ℚ) :=
  let ks := List.insertionSort (· ≤ ·) ((df.map anoMes).dedup)
  ks.map (fun k => (k, anoMesSum df k))

/-- Line 157: `f"{hoje.year}-{hoje.month:02d}"`. -/
def anoMesAtual (hoje : Date) : String :=
  toString hoje.year ++ "-" ++ padNat 2 hoje.month

/-- Line 158: current-month total over the unfiltered table. -/
def total_mes_atual (df : List Row) (hoje : Date) : ℚ :=
  ((df.filter (fun r => decide (anoMes r = anoMesAtual hoje))).filterMap Row.valor).sum

/-- Everything the reports section computes from the loaded table and the
user-selected filters. -/
structure Relatorio where
  total_periodo : ℚ
  qtd_registros : Nat
  media_registro : Option ℚ
  total_mes_atual : ℚ
  grp_cli : List (Cell × ℚ)
  grp_srv : List (Cell × ℚ)
  resumo_mensal : List (String × ℚ)

/-- Lines 141-249: the KPI/grouping computations. The per-client/per-service
groupings and the KPIs run over the filtered table; the current-month total
and the monthly summary run over the unfiltered table. -/
def relatorio (df : List Row) (d1 d2 : Date) (cs ss : List Cell) (hoje : Date) : Relatorio :=
  let dff := df_filtrado df d1 d2 cs ss
  { total_periodo := total_periodo dff
    qtd_registros := dff.length
    media_registro := media_registro dff
    total_mes_atual := total_mes_atual df hoje
    grp_cli := grp_cli dff
    grp_srv := grp_srv dff
    resumo_mensal := resumo_mensal df }

/-! ### Specification-side definitions

These follow the spec's words, to be compared with the embedded code. -/

/-- The observable record content named by the round-trip claim: the
(client, service, amount) triple. -/
def projRec (r : Row) : Cell × Cell × Option ℚ := (r.cliente, r.servico, r.valor)

/-- Spec-side formula of C3: the sum of the amounts of exactly the records
whose date `d` satisfies `d1 ≤ d ≤ d2`, both bounds inclusive. -/
def specRangeSum (df : List Row) (d1 d2 : Date) : ℚ :=
  ((df.filter (fun r =>
      match dataCol r with
      | some d => decide (d1 ≤ d ∧ d ≤ d2)
      | none => false)).filterMap Row.valor).sum

/-- Spec-side formula of C2: the sum of the amounts of exactly the records
whose (parsed) timestamp falls in the calendar month named `k`. -/
def specCalendarMonthSum (df : List Row) (k : String) : ℚ :=
  ((df.filter (fun r =>
      match r.dataHora with
      | some t => decide (toYM t.year t.month = k)
      | none => false)).filterMap Row.valor).sum

/-- Division as float division: NaN (`none`) when the denominator is zero. -/
def optDiv (q : ℚ) (n : Nat) : Option ℚ :=
  if n = 0 then none else some (q / (n : ℚ))

/-- Spec-side formula of C8: `0` when the record count is zero, otherwise the
total divided by the count of non-null amounts. -/
def average_spec (df : List Row) : Option ℚ :=
  if df.length = 0 then some 0
  else optDiv (total_periodo df) (df.filterMap Row.valor).length

/-! ### Helper lemmas -/

theorem normalizeRow_rowToRaw (r : Row) : normalizeRow (rowToRaw r) = r := by
  cases r with
  | mk dh c s v => cases dh <;> cases v <;> rfl

theorem map_norm_raw (l : List Row) : (l.map rowToRaw).map normalizeRow = l := by
  induction l with
  | nil => rfl
  | cons a t ih => simp [normalizeRow_rowToRaw, ih]

theorem map_fst_pairing {α β : Type} (f : α → β) (ks : List α) :
    (ks.map (fun k => (k, f k))).map Prod.fst = ks := by
  induction ks with
  | nil => rfl
  | cons a t ih => simp [ih]

theorem resumo_mensal_eq (df : List Row) :
    resumo_mensal df
      = (List.insertionSort (· ≤ ·) ((df.map anoMes).dedup)).map
          (fun k => (k, anoMesSum df k)) := rfl

theorem group_sum_eq (df : List Row) (key : Row → Cell) :
    group_sum df key
      = List.insertionSort geByVal
          ((((df.map key).filter (fun c => !c.isNull)).dedup).map
            (fun k => (k, keySum df key k))) := rfl

theorem Cell.ne_empty_of_not_null {c : Cell} (h : (!c.isNull) = true) :
    c ≠ Cell.empty := by
  cases c <;> simp_all [Cell.isNull]

theorem Cell.not_null_of_ne_empty {c : Cell} (h : c ≠ Cell.empty) :
    (!c.isNull) = true := by
  cases c <;> simp_all [Cell.isNull]

/-! ### Claims -/

/-- Claim C1, counterexample: serializing a one-record table with
`to_excel_bytes` and loading the bytes with `carregar_dados` at its configured
sheet name `ABA = "Records"` does not reproduce the (client, service, amount)
triples: the export writes sheet `"Filtered"`, so the load takes the
missing-sheet warning path and returns the empty table. -/
theorem C1_roundtrip_counterexample :
    ¬ (((carregar_dados (some (to_excel_bytes
          [⟨some ⟨2024, 1, 2, 3, 4, 5⟩, Cell.str "Acme", Cell.str "Consulting", some 100⟩]))
            ABA).table).map projRec
        = [(⟨some ⟨2024, 1, 2, 3, 4, 5⟩, Cell.str "Acme", Cell.str "Consulting", some 100⟩ :
            Row)].map projRec) := by
  decide

/-- Claim C1 as amended: the round-trip does hold — with all records, their
(client, service, amount) content and their timestamps reproduced exactly and
in order — when `carregar_dados` is pointed at the sheet name the Export
Adapter actually writes (`"Filtered"`). -/
theorem C1_roundtrip_amended (df : List Row) :
    (carregar_dados (some (to_excel_bytes df)) "Filtered").table = df := by
  show ((df.map rowToRaw).map normalizeRow) = df
  exact map_norm_raw df

/-- Claim C2, counterexample: on a table containing a record whose timestamp
failed to parse, `resumo_mensal` emits the bucket key `"NaT"` (from
`.astype(str)` on a NaT period) holding that record's amount, while no
calendar month contains the record — so not every key's value is the sum of a
calendar month's records. -/
theorem C2_monthly_counterexample :
    ¬ ((((resumo_mensal [⟨none, Cell.str "A", Cell.str "S", some 5⟩]).map Prod.fst).Sorted
          (· < ·)) ∧
       ∀ p ∈ resumo_mensal [⟨none, Cell.str "A", Cell.str "S", some 5⟩],
         p.2 = specCalendarMonthSum [⟨none, Cell.str "A", Cell.str "S", some 5⟩] p.1) := by
  intro h
  have hr : resumo_mensal [⟨none, Cell.str "A", Cell.str "S", some 5⟩] = [("NaT", 5)] := by
    with_unfolding_all rfl
  have hmem : ("NaT", (5 : ℚ)) ∈ resumo_mensal [⟨none, Cell.str "A", Cell.str "S", some 5⟩] := by
    rw [hr]; exact List.mem_singleton_self _
  have h5 := h.2 _ hmem
  revert h5
  decide

/-- Claim C2 as amended: the monthly summary is computed over the unfiltered
table and its keys are strictly ascending in lexical order; every key's value
is the sum of the amounts of exactly the records whose derived `AnoMes` bucket
equals that key, where records with an unparseable timestamp carry the literal
bucket `"NaT"` (sorting after every `"YYYY-MM"` key) instead of a calendar
month; every record of the table is counted in its bucket. -/
theorem C2_monthly_amended (df : List Row) (d1 d2 : Date) (cs ss : List Cell) (hoje : Date) :
    (relatorio df d1 d2 cs ss hoje).resumo_mensal = resumo_mensal df ∧
    ((resumo_mensal df).map Prod.fst).Sorted (· < ·) ∧
    (∀ p ∈ resumo_mensal df, p.2 = anoMesSum df p.1) ∧
    (∀ r ∈ df, ∃ p ∈ resumo_mensal df, p.1 = anoMes r) := by
  refine ⟨rfl, ?_, ?_, ?_⟩
  · rw [resumo_mensal_eq, map_fst_pairing]
    have hs : (List.insertionSort (· ≤ ·) ((df.map anoMes).dedup)).Sorted (· ≤ ·) :=
      List.sorted_insertionSort _ _
    have hn : (List.insertionSort (· ≤ ·) ((df.map anoMes).dedup)).Nodup :=
      (List.Perm.nodup_iff (List.perm_insertionSort _ _)).mpr (List.nodup_dedup _)
    exact hs.lt_of_le hn
  · intro p hp
    rw [resumo_mensal_eq] at hp
    obtain ⟨k, _, rfl⟩ := List.mem_map.mp hp
    rfl
  · intro r hr
    refine ⟨(anoMes r, anoMesSum df (anoMes r)), ?_, rfl⟩
    rw [resumo_mensal_eq]
    apply List.mem_map_of_mem
    rw [(List.perm_insertionSort _ _).mem_iff]
    exact List.mem_dedup.mpr (List.mem_map_of_mem _ hr)

/-- Witness for C2's amended theorem at a concrete table and filter. -/
theorem C2_monthly_amended_witness :
    (relatorio [⟨some ⟨2024, 1, 2, 3, 4, 5⟩, Cell.str "A", Cell.str "S", some 5⟩]
        ⟨2024, 1, 1⟩ ⟨2024, 12, 31⟩ [] [] ⟨2024, 1, 1⟩).resumo_mensal
      = resumo_mensal [⟨some ⟨2024, 1, 2, 3, 4, 5⟩, Cell.str "A", Cell.str "S", some 5⟩] ∧
    ((resumo_mensal [⟨some ⟨2024, 1, 2, 3, 4, 5⟩, Cell.str "A", Cell.str "S", some 5⟩]).map
        Prod.fst).Sorted (· < ·) ∧
    (∀ p ∈ resumo_mensal [⟨some ⟨2024, 1, 2, 3, 4, 5⟩, Cell.str "A", Cell.str "S", some 5⟩],
      p.2 = anoMesSum [⟨some ⟨2024, 1, 2, 3, 4, 5⟩, Cell.str "A", Cell.str "S", some 5⟩] p.1) ∧
    (∀ r ∈ [(⟨some ⟨2024, 1, 2, 3, 4, 5⟩, Cell.str "A", Cell.str "S", some 5⟩ : Row)],
      ∃ p ∈ resumo_mensal [⟨some ⟨2024, 1, 2, 3, 4, 5⟩, Cell.str "A", Cell.str "S", some 5⟩],
        p.1 = anoMes r) :=
  C2_monthly_amended [⟨some ⟨2024, 1, 2, 3, 4, 5⟩, Cell.str "A", Cell.str "S", some 5⟩]
    ⟨2024, 1, 1⟩ ⟨2024, 12, 31⟩ [] [] ⟨2024, 1, 1⟩

/-- Claim C3: with no client/service selection, the total KPI over the
date-filtered table equals the sum of the amounts of exactly the records whose
date `d` satisfies `d1 ≤ d ≤ d2`, both bounds inclusive — for every table and
every pair of dates, including `d1 = d2`. -/
theorem C3_total_filtered_range (df : List Row) (d1 d2 : Date) (hoje : Date) :
    (relatorio df d1 d2 [] [] hoje).total_periodo = specRangeSum df d1 d2 := by
  have h0 : (relatorio df d1 d2 [] [] hoje).total_periodo
      = total_periodo (df.filter (dateMask d1 d2)) := rfl
  have hfilter : df.filter (dateMask d1 d2)
      = df.filter (fun r =>
          match dataCol r with
          | some d => decide (d1 ≤ d ∧ d ≤ d2)
          | none => false) := by
    apply List.filter_congr
    intro r _
    unfold dateMask
    cases dataCol r with
    | none => rfl
    | some d => exact (Bool.decide_and _ _).symm
  rw [h0]
  unfold total_periodo specRangeSum
  rw [hfilter]

/-- Claim C4: after a valid submission is appended, reloading the backing file
yields a table containing the new record with client and service stripped of
surrounding whitespace and with the exact amount submitted. -/
theorem C4_append_then_load (cliente servico : String) (valor : ℚ) (now : DateTime)
    (file : Option FileData)
    (h1 : strip cliente ≠ "") (h2 : strip servico ≠ "") (h3 : 0 ≤ valor) :
    ∃ r ∈ (carregar_dados (some (salvar_registro cliente servico valor now file ABA).1)
        ABA).table,
      r.cliente = Cell.str (strip cliente) ∧ r.servico = Cell.str (strip servico) ∧
        r.valor = some valor := by
  obtain ⟨pre, hpre⟩ : ∃ pre, (salvar_registro cliente servico valor now file ABA).1
      = FileData.sheet ABA (pre ++ [novoRow cliente servico valor now]) := by
    cases file with
    | none => exact ⟨[], rfl⟩
    | some fd =>
      cases fd with
      | corrupt => exact ⟨[], rfl⟩
      | sheet name rows =>
        by_cases h : name = ABA
        · exact ⟨rows, by simp [salvar_registro, h]⟩
        · exact ⟨[], by simp [salvar_registro, h]⟩
  rw [hpre]
  show ∃ r ∈ (if ABA = ABA then
      (⟨false, (pre ++ [novoRow cliente servico valor now]).map normalizeRow⟩ : LoadResult)
    else ⟨true, []⟩).table, _
  rw [if_pos rfl]
  refine ⟨normalizeRow (novoRow cliente servico valor now), ?_, rfl, rfl, rfl⟩
  exact List.mem_map_of_mem _ (List.mem_append_right _ (List.mem_singleton_self _))

/-- Witness for C4 at a concrete submission over an absent backing file. -/
theorem C4_append_then_load_witness :
    (strip " Acme " ≠ "" ∧ strip "Consulting" ≠ "" ∧ (0 : ℚ) ≤ 100) ∧
    (∃ r ∈ (carregar_dados
        (some (salvar_registro " Acme " "Consulting" 100 ⟨2024, 5, 6, 7, 8, 9⟩ none ABA).1)
          ABA).table,
      r.cliente = Cell.str (strip " Acme ") ∧ r.servico = Cell.str (strip "Consulting") ∧
        r.valor = some 100) :=
  ⟨⟨by decide, by decide, by decide⟩,
    C4_append_then_load " Acme " "Consulting" 100 ⟨2024, 5, 6, 7, 8, 9⟩ none
      (by decide) (by decide) (by decide)⟩

/-- Claim C5: loading never raises — an absent backing file yields the empty
(four-column, zero-record) table without a warning, and a corrupt/unreadable
backing file yields the recoverable warning plus the same empty table. -/
theorem C5_load_never_raises (aba : String) :
    carregar_dados none aba = ⟨false, []⟩ ∧
    carregar_dados (some FileData.corrupt) aba = ⟨true, []⟩ :=
  ⟨rfl, rfl⟩

/-- Claim C6: for either grouping key (client or service) and every table,
`group_sum` is sorted by descending summed amount, excludes records with a
null key value, pairs each key with exactly the sum of its records' amounts,
and has a group for every record with a non-null key. -/
theorem C6_group_sum_props (df : List Row) (key : Row → Cell)
    (hk : key = Row.cliente ∨ key = Row.servico) :
    (group_sum df key).Sorted (fun a b => b.2 ≤ a.2) ∧
    (∀ p ∈ group_sum df key, p.1 ≠ Cell.empty) ∧
    (∀ p ∈ group_sum df key, p.2 = keySum df key p.1) ∧
    (∀ r ∈ df, key r ≠ Cell.empty → ∃ p ∈ group_sum df key, p.1 = key r) := by
  refine ⟨?_, ?_, ?_, ?_⟩
  · exact List.sorted_insertionSort geByVal _
  · intro p hp
    rw [group_sum_eq, (List.perm_insertionSort _ _).mem_iff] at hp
    obtain ⟨k, hks, rfl⟩ := List.mem_map.mp hp
    have hk2 : k ∈ (df.map key).filter (fun c => !c.isNull) := List.mem_dedup.mp hks
    have hk3 : (!k.isNull) = true := by simpa using List.of_mem_filter hk2
    exact Cell.ne_empty_of_not_null hk3
  · intro p hp
    rw [group_sum_eq, (List.perm_insertionSort _ _).mem_iff] at hp
    obtain ⟨k, _, rfl⟩ := List.mem_map.mp hp
    rfl
  · intro r hr hne
    refine ⟨(key r, keySum df key (key r)), ?_, rfl⟩
    rw [group_sum_eq, (List.perm_insertionSort _ _).mem_iff]
    apply List.mem_map_of_mem
    apply List.mem_dedup.mpr
    exact List.mem_filter.mpr ⟨List.mem_map_of_mem _ hr, Cell.not_null_of_ne_empty hne⟩

/-- Witness for C6 at the client key and a concrete table. -/
theorem C6_group_sum_props_witness :
    ((Row.cliente = Row.cliente ∨ Row.cliente = Row.servico) ∧
      (group_sum [⟨some ⟨2024, 1, 2, 3, 4, 5⟩, Cell.str "A", Cell.str "S", some 5⟩]
          Row.cliente).Sorted (fun a b => b.2 ≤ a.2)) ∧
    (∀ p ∈ group_sum [⟨some ⟨2024, 1, 2, 3, 4, 5⟩, Cell.str "A", Cell.str "S", some 5⟩]
        Row.cliente, p.1 ≠ Cell.empty) ∧
    (∀ p ∈ group_sum [⟨some ⟨2024, 1, 2, 3, 4, 5⟩, Cell.str "A", Cell.str "S", some 5⟩]
        Row.cliente,
      p.2 = keySum [⟨some ⟨2024, 1, 2, 3, 4, 5⟩, Cell.str "A", Cell.str "S", some 5⟩]
        Row.cliente p.1) ∧
    (∀ r ∈ [(⟨some ⟨2024, 1, 2, 3, 4, 5⟩, Cell.str "A", Cell.str "S", some 5⟩ : Row)],
      r.cliente ≠ Cell.empty →
        ∃ p ∈ group_sum [⟨some ⟨2024, 1, 2, 3, 4, 5⟩, Cell.str "A", Cell.str "S", some 5⟩]
          Row.cliente, p.1 = r.cliente) := by
  have h := C6_group_sum_props
    [⟨some ⟨2024, 1, 2, 3, 4, 5⟩, Cell.str "A", Cell.str "S", some 5⟩] Row.cliente (Or.inl rfl)
  exact ⟨⟨Or.inl rfl, h.1⟩, h.2.1, h.2.2.1, h.2.2.2⟩

/-- Claim C7: a submission with an empty/whitespace-only client, an
empty/whitespace-only service, or a negative amount is rejected by the form
handler before `salvar_registro` is ever called: no save happens and the
backing file is unchanged. -/
theorem C7_invalid_submission_rejected (cliente servico : String) (valor : ℚ)
    (now : DateTime) (file : Option FileData)
    (h : strip cliente = "" ∨ strip servico = "" ∨ valor < 0) :
    form_submit cliente servico valor now file = (file, false) := by
  unfold form_submit
  rcases h with h | h | h
  · simp [h]
  · simp [h]
  · simp [h]

/-- Witness for C7 at a whitespace-only client. -/
theorem C7_invalid_submission_rejected_witness :
    (strip "   " = "" ∨ strip "Consulting" = "" ∨ (50 : ℚ) < 0) ∧
    form_submit "   " "Consulting" 50 ⟨2024, 5, 6, 7, 8, 9⟩ none = (none, false) :=
  ⟨Or.inl (by decide),
    C7_invalid_submission_rejected "   " "Consulting" 50 ⟨2024, 5, 6, 7, 8, 9⟩ none
      (Or.inl (by decide))⟩

/-- Claim C8: the mean KPI is `0` on the empty table (record count zero, no
division-by-zero failure) and otherwise equals the total divided by the count
of non-null amounts, that division yielding the NaN marker when no amount is
non-null (float `mean` semantics). -/
theorem C8_media_empty_zero (df : List Row) : media_registro df = average_spec df := by
  cases df with
  | nil => rfl
  | cons a l =>
    rw [show media_registro (a :: l) = mean_valor (a :: l) from by
      unfold media_registro
      exact if_pos (by simp)]
    rw [show average_spec (a :: l)
        = optDiv (total_periodo (a :: l)) ((a :: l).filterMap Row.valor).length from by
      unfold average_spec
      exact if_neg (by simp)]
    with_unfolding_all rfl

/-- Claim C9: when the backing file exists but cannot be read at the moment
`salvar_registro` runs, the read error is swallowed and the file is rewritten
with a table holding only the newly submitted record — a subsequent load sees
exactly that single record, every previously persisted one having been
discarded. -/
theorem C9_unreadable_append_discards (c s : String) (v : ℚ) (now : DateTime) (aba : String) :
    salvar_registro c s v now (some FileData.corrupt) aba
      = (FileData.sheet aba [novoRow c s v now], [novoRow c s v now]) ∧
    (carregar_dados (some (salvar_registro c s v now (some FileData.corrupt) aba).1) aba).table
      = [normalizeRow (novoRow c s v now)] := by
  refine ⟨rfl, ?_⟩
  show (if aba = aba then
      (⟨false, [novoRow c s v now].map normalizeRow⟩ : LoadResult)
    else ⟨true, []⟩).table = _
  rw [if_pos rfl]
  rfl

/-- Claim C10: on a non-empty table all of whose amounts are null, the mean
KPI is NaN (`none`), not `0`: the guard tests the record count, which is
positive, and the mean of zero non-null values is NaN. -/
theorem C10_all_null_mean_nan (df : List Row) (h1 : df ≠ [])
    (h2 : ∀ r ∈ df, r.valor = none) :
    media_registro df = none := by
  have hv : df.filterMap Row.valor = [] := List.filterMap_eq_nil_iff.mpr h2
  simp [media_registro, mean_valor, hv, List.length_pos.mpr h1]

/-- Witness for C10 at a concrete single-record table with a null amount. -/
theorem C10_all_null_mean_nan_witness :
    (([⟨none, Cell.str "A", Cell.str "S", none⟩] : List Row) ≠ [] ∧
      ∀ r ∈ ([⟨none, Cell.str "A", Cell.str "S", none⟩] : List Row), r.valor = none) ∧
    media_registro [⟨none, Cell.str "A", Cell.str "S", none⟩] = none :=
  ⟨⟨by decide, by decide⟩,
    C10_all_null_mean_nan [⟨none, Cell.str "A", Cell.str "S", none⟩] (by decide) (by decide)⟩

end PaymentsApp
